import Mathlib

/-!
Verification of the booking / slot-allocation core of the Chat_Appointment
repository (files `db_setup.py`, `mcp_chat_appointment.py`, `test_adv.py`).

Conventions of the shallow embedding:
* clock times (the TIME columns, e.g. slot `start_time` "10:00:00") are
  modelled as minutes since midnight (`Nat`); Python `datetime.combine + timedelta`
  arithmetic on times wraps at 24 h, hence the `% 1440` below;
* SQLite tables become Lean lists of structures; a `SELECT ... WHERE` becomes
  `List.find?` / `List.filter`; an `UPDATE ... WHERE id = ?` becomes `List.map`
  guarded on the id;
* `execute_dynamic_query` swallows every exception and returns `None`; the one
  realizable failure of the ledger INSERT is the UNIQUE constraint on
  `appointment_number`, modelled explicitly in `insertAppointment`;
* the external Gemini summary call is modelled by an `Option SummaryData`
  argument (`none` = the call raised, triggering the deterministic fallback of
  the except branch of `generate_patient_summary`);
* `datetime.now()` is modelled by an explicit `Timestamp` argument (for the
  appointment number) and a `nowDate : String` argument (for the default
  appointment date);
* interaction logging, AI insight fields other than `ai_patient_summary`, and
  the patient demographic columns not touched by any claim are omitted.
-/

/-- A row of the `clinics` table (`db_setup.py`, fields used by booking). -/
structure Clinic where
  id : Nat
  name : String
  address : String
  phone : String
  operating_hours : String
deriving DecidableEq

/-- A row of the `services` table. Prices in the seed data are integral rupee
amounts, modelled as `Nat`. -/
structure Service where
  id : Nat
  name : String
  description : String
  department : String
  price : Nat
  duration_minutes : Nat
deriving DecidableEq

/-- A row of the `doctors` table (fields used by booking). -/
structure Doctor where
  id : Nat
  name : String
  specialty : String
  phone : String
  clinic_id : Nat
deriving DecidableEq

/-- A row of the `time_slots` table; `start_time` / `end_time` are minutes
since midnight. -/
structure TimeSlot where
  id : Nat
  doctor_id : Nat
  day_of_week : Nat
  start_time : Nat
  end_time : Nat
  is_available : Bool
deriving DecidableEq

/-- The services database (`healthcare_services.db`). -/
structure Catalog where
  clinics : List Clinic
  services : List Service
  doctors : List Doctor
  timeSlots : List TimeSlot
deriving DecidableEq

/-- A row of `enhanced_appointments` (`test_adv.py` schema), restricted to the
columns the claims are about: the denormalized doctor/clinic/service snapshot,
the schedule fields, the complaint and the AI summary. -/
structure Appointment where
  id : Nat
  appointment_number : String
  patient_name : String
  doctor_id : Nat
  doctor_name : String
  doctor_specialty : String
  doctor_phone : String
  clinic_id : Nat
  clinic_name : String
  clinic_address : String
  clinic_phone : String
  clinic_operating_hours : String
  service_id : Nat
  service_name : String
  service_description : String
  service_department : String
  service_price : Nat
  service_duration_minutes : Nat
  appointment_date : String
  appointment_time : Nat
  appointment_end_time : Nat
  slot_id : Nat
  patient_complaint : String
  ai_patient_summary : String
  status : String
deriving DecidableEq

/-- A row of `appointment_status_history`. `appointment_id` is nullable: the
booking code inserts whatever `execute_dynamic_query` returned, which is
`None` when the ledger INSERT failed. -/
structure HistoryEntry where
  appointment_id : Option Nat
  old_status : Option String
  new_status : String
  changed_by : String
  reason : String
deriving DecidableEq

/-- The appointments database (`appointments.db`): the enhanced ledger plus the
status-history audit table. `nextAppointmentId` models AUTOINCREMENT. -/
structure Ledger where
  appointments : List Appointment
  statusHistory : List HistoryEntry
  nextAppointmentId : Nat
deriving DecidableEq

/-- The two databases the server manipulates. -/
structure ServerState where
  catalog : Catalog
  ledger : Ledger
deriving DecidableEq

/-- A wall-clock instant, the fields of `datetime.now()` consumed by
`strftime`. -/
structure Timestamp where
  year : Nat
  month : Nat
  day : Nat
  hour : Nat
  minute : Nat
  second : Nat
deriving DecidableEq

/-- Zero-padded two-digit decimal rendering, the `%m`/`%d`/`%H`/`%M`/`%S`
strftime fields (for values below 100; larger values print unpadded, like
`%02d`). -/
def pad2 (n : Nat) : String :=
  (if n < 10 then "0" else "") ++ Nat.repr n

/-- The `%Y` strftime field: the year zero-padded to at least four digits.
Splitting at the last two digits reproduces `%04d` for every `n`. -/
def pad4 (n : Nat) : String :=
  pad2 (n / 100) ++ pad2 (n % 100)

/-- The strftime format %Y%m%d%H%M%S applied to datetime.now, as in
`DatabaseManager.generate_appointment_number`. -/
def strftimeCompact (t : Timestamp) : String :=
  pad4 t.year ++ pad2 t.month ++ pad2 t.day ++ pad2 t.hour ++ pad2 t.minute ++ pad2 t.second

/-- The number generator `DatabaseManager.generate_appointment_number`: a fixed
APT- prefix plus the second-granularity timestamp. -/
def generate_appointment_number (t : Timestamp) : String :=
  "APT-" ++ strftimeCompact t

/-- The doctor lookup of `book_appointment_comprehensive`
(`SELECT d.* ... FROM doctors d ... WHERE d.id = ?`). -/
def findDoctor (c : Catalog) (did : Nat) : Option Doctor :=
  c.doctors.find? (fun d => d.id == did)

/-- The `JOIN clinics c ON d.clinic_id = c.id` part of the doctor lookup. -/
def findClinic (c : Catalog) (cid : Nat) : Option Clinic :=
  c.clinics.find? (fun k => k.id == cid)

/-- The service lookup `SELECT * FROM services WHERE id = ?`. -/
def findService (c : Catalog) (sid : Nat) : Option Service :=
  c.services.find? (fun s => s.id == sid)

/-- The slot validation of `book_appointment_comprehensive`:
`SELECT * FROM time_slots WHERE id = ? AND doctor_id = ? AND is_available = 1`. -/
def slotCheckComprehensive (c : Catalog) (slotId doctorId : Nat) : Option TimeSlot :=
  c.timeSlots.find? (fun ts => ts.id == slotId && ts.doctor_id == doctorId && ts.is_available)

/-- The slot consumption `UPDATE time_slots SET is_available = 0 WHERE id = ?`. -/
def markSlotUnavailable (c : Catalog) (slotId : Nat) : Catalog :=
  let flip := fun (ts : TimeSlot) =>
    if ts.id == slotId then { ts with is_available := false } else ts
  { c with timeSlots := c.timeSlots.map flip }

/-- The result of the external Gemini summary call, restricted to the field the
claims are about (`ai_patient_summary`; the three insight fields are omitted). -/
structure SummaryData where
  ai_patient_summary : String
deriving DecidableEq

/-- The `except` branch of `GeminiAIManager.generate_patient_summary`: the
deterministic fallback summary template built from the structured fields.
the name argument defaults to Unknown when absent; service_name and
`complaint` are always present in `comprehensive_patient_data`. -/
def fallback_ai_patient_summary (name : Option String) (service_name complaint : String) : String :=
  "Patient " ++ name.getD "Unknown" ++ " scheduled for " ++ service_name ++
    ". Complaint: " ++ complaint ++ ". Please conduct thorough examination as per standard protocol."

/-- The structured booking input of `book_appointment_comprehensive` (fields
touched by the claims; `none` models an absent JSON key). -/
structure BookingData where
  patient_name : Option String
  doctor_id : Nat
  service_id : Nat
  time_slot_id : Nat
  appointment_date : Option String
  complaint : Option String
deriving DecidableEq

/-- The ledger INSERT through `execute_dynamic_query`: it violates the UNIQUE
constraint on `appointment_number` when the number is already present, in which
case `execute_dynamic_query` catches the exception and returns `None` (no row
is written, modelled as an unchanged ledger and a `none` appointment id). -/
def insertAppointment (l : Ledger) (a : Appointment) : Ledger × Option Nat :=
  if l.appointments.any (fun b => b.appointment_number == a.appointment_number) then
    (l, none)
  else
    ({ l with appointments := l.appointments ++ [a],
              nextAppointmentId := l.nextAppointmentId + 1 }, some a.id)

/-- The AI summary text used by `book_appointment_comprehensive`: the Gemini
result when the call succeeded, otherwise the deterministic fallback. -/
def bookSummary (sr : Option SummaryData) (data : BookingData) (sv : Service) : String :=
  match sr with
  | some sd => sd.ai_patient_summary
  | none => fallback_ai_patient_summary data.patient_name sv.name (data.complaint.getD "")

/-- Outcome of `book_appointment_comprehensive`: the JSON error reply, or the
success reply with the fields of `appointment_details` the claims mention. -/
inductive BookResult where
  | err (msg : String)
  | ok (appointment_number : String) (appointment_id : Option Nat)
       (appointment_time : Nat) (appointment_end_time : Nat)
       (appointment_date : String) (ai_patient_summary : String)
deriving DecidableEq

/-- The `success` flag of the returned JSON. -/
def BookResult.isSuccess : BookResult → Bool
  | .err _ => false
  | .ok _ _ _ _ _ _ => true

/-- The `appointment_number` of a successful reply. -/
def BookResult.numberOf : BookResult → Option String
  | .err _ => none
  | .ok n _ _ _ _ _ => some n

/-- The `enhanced_appointments` row assembled by
`book_appointment_comprehensive`: every doctor/clinic/service field is copied
by value out of the rows looked up at booking time. -/
def bookRow (s : ServerState) (data : BookingData) (sr : Option SummaryData)
    (t : Timestamp) (nd : String) (d : Doctor) (c : Clinic) (sv : Service)
    (slot : TimeSlot) : Appointment :=
  { id := s.ledger.nextAppointmentId
    appointment_number := generate_appointment_number t
    patient_name := data.patient_name.getD ""
    doctor_id := data.doctor_id
    doctor_name := d.name
    doctor_specialty := d.specialty
    doctor_phone := d.phone
    clinic_id := d.clinic_id
    clinic_name := c.name
    clinic_address := c.address
    clinic_phone := c.phone
    clinic_operating_hours := c.operating_hours
    service_id := data.service_id
    service_name := sv.name
    service_description := sv.description
    service_department := sv.department
    service_price := sv.price
    service_duration_minutes := sv.duration_minutes
    appointment_date := data.appointment_date.getD nd
    appointment_time := slot.start_time
    appointment_end_time := (slot.start_time + sv.duration_minutes) % 1440
    slot_id := data.time_slot_id
    patient_complaint := data.complaint.getD ""
    ai_patient_summary := bookSummary sr data sv
    status := "scheduled" }

/-- The write sequence at the end of `book_appointment_comprehensive`: ledger
INSERT (whose failure is swallowed), then `UPDATE time_slots SET
is_available = 0`, then the initial status-history INSERT, which records
whatever appointment id the ledger INSERT returned (NULL on failure). -/
def bookCommit (s : ServerState) (slotId : Nat) (row : Appointment) :
    ServerState × Option Nat :=
  let inserted := insertAppointment s.ledger row
  let catalog1 := markSlotUnavailable s.catalog slotId
  let ledger2 :=
    { inserted.1 with statusHistory := inserted.1.statusHistory ++
        [{ appointment_id := inserted.2
           old_status := none
           new_status := "scheduled"
           changed_by := "ai_assistant"
           reason := "Initial booking" }] }
  ({ catalog := catalog1, ledger := ledger2 }, inserted.2)

/-- The booking tool `book_appointment_comprehensive` (`test_adv.py`): doctor-with-clinic
lookup, service lookup, slot validation, appointment-number generation, end
time = slot start + service duration (time arithmetic wraps at 24 h), AI
summary with deterministic fallback, ledger INSERT (failure swallowed), slot
flip, status-history insert, success reply. All three validation failures
return before any write. -/
def book_appointment_comprehensive (s : ServerState) (data : BookingData)
    (summaryResult : Option SummaryData) (now : Timestamp) (nowDate : String) :
    ServerState × BookResult :=
  match findDoctor s.catalog data.doctor_id with
  | none => (s, .err "Doctor not found")
  | some d =>
    match findClinic s.catalog d.clinic_id with
    | none => (s, .err "Doctor not found")
    | some c =>
      match findService s.catalog data.service_id with
      | none => (s, .err "Service not found")
      | some sv =>
        match slotCheckComprehensive s.catalog data.time_slot_id data.doctor_id with
        | none => (s, .err "Time slot not available")
        | some slot =>
          let row := bookRow s data summaryResult now nowDate d c sv slot
          let committed := bookCommit s data.time_slot_id row
          (committed.1,
           .ok row.appointment_number committed.2 row.appointment_time
             row.appointment_end_time row.appointment_date row.ai_patient_summary)

/-- Outcome of `update_appointment_status`. -/
inductive UpdateResult where
  | err (msg : String)
  | ok (old_status new_status : String)
deriving DecidableEq

/-- The status tool `update_appointment_status` (`test_adv.py`): reads the current status,
updates the row, appends one history entry. It touches only the appointments
database; no statement against `time_slots` occurs on any path. -/
def update_appointment_status (s : ServerState) (appointmentId : Nat)
    (newStatus reason changedBy : String) : ServerState × UpdateResult :=
  match s.ledger.appointments.find? (fun a => a.id == appointmentId) with
  | none => (s, .err "Appointment not found")
  | some apt =>
    let apts := s.ledger.appointments.map
      (fun a => if a.id == appointmentId then { a with status := newStatus } else a)
    let hist := s.ledger.statusHistory ++
      [{ appointment_id := some appointmentId
         old_status := some apt.status
         new_status := newStatus
         changed_by := changedBy
         reason := reason }]
    ({ s with ledger := { s.ledger with appointments := apts, statusHistory := hist } },
     .ok apt.status newStatus)

/-- A row of the plain `appointments` table written by
`book_appointment_intelligent` (`mcp_chat_appointment.py`). -/
structure SimpleAppointment where
  patient_id : Option Nat
  doctor_id : Nat
  service_id : Nat
  clinic_id : Nat
  appointment_date : String
  appointment_time : Nat
  duration_minutes : Nat
  patient_complaint : String
  symptoms_description : String
  urgency_level : String
  status : String
deriving DecidableEq

/-- The slot validation of `book_appointment_intelligent`:
`SELECT ts.*, ... FROM time_slots ts JOIN doctors d ON ts.doctor_id = d.id
LEFT JOIN services s ON ? = s.id JOIN clinics c ON d.clinic_id = c.id
WHERE ts.id = ? AND ts.is_available = 1`.
The supplied doctor id is not compared against the slot; the inner JOINs only
require the slot's own doctor and that doctor's clinic to exist. -/
def slotCheckIntelligent (c : Catalog) (slotId : Nat) : Option TimeSlot :=
  c.timeSlots.find? (fun ts => ts.id == slotId && ts.is_available &&
    c.doctors.any (fun d => d.id == ts.doctor_id &&
      c.clinics.any (fun k => k.id == d.clinic_id)))

/-- Outcome of `book_appointment_intelligent`. -/
inductive SimpleBookResult where
  | err (msg : String)
  | ok (appointment_date : String) (appointment_time : Nat)
deriving DecidableEq

/-- The `success` flag of the returned JSON. -/
def SimpleBookResult.isSuccess : SimpleBookResult → Bool
  | .err _ => false
  | .ok _ _ => true

/-- The booking tool `book_appointment_intelligent` (`mcp_chat_appointment.py`): slot check
(no doctor-ownership test), INSERT into `appointments` with hardcoded
clinic_id 1 and duration 30, slot flip, success reply. -/
def book_appointment_intelligent (c : Catalog) (appts : List SimpleAppointment)
    (patientId : Option Nat) (doctorId serviceId slotId : Nat)
    (dateOpt : Option String) (nowDate : String)
    (complaint symptoms urgency : Option String) :
    Catalog × List SimpleAppointment × SimpleBookResult :=
  match slotCheckIntelligent c slotId with
  | none => (c, appts, .err "Time slot not available")
  | some slot =>
    let date := dateOpt.getD nowDate
    let row : SimpleAppointment :=
      { patient_id := patientId
        doctor_id := doctorId
        service_id := serviceId
        clinic_id := 1
        appointment_date := date
        appointment_time := slot.start_time
        duration_minutes := 30
        patient_complaint := complaint.getD ""
        symptoms_description := symptoms.getD ""
        urgency_level := urgency.getD "normal"
        status := "scheduled" }
    (markSlotUnavailable c slotId, appts ++ [row], .ok date slot.start_time)

/-- The slot-generation while-loop of `create_services_database`
(`db_setup.py`): starting at the doctor's working-hours start, emit consecutive
30-minute windows, stopping before any window whose end would pass the
working-hours end. Times are minutes since midnight. -/
def generate_slots (cur fin : Nat) : List (Nat × Nat) :=
  if cur < fin then
    if cur + 30 ≤ fin then
      (cur, cur + 30) :: generate_slots (cur + 30) fin
    else []
  else []
termination_by fin - cur
decreasing_by omega

/-- The per-doctor double loop of `create_services_database`: for each
available day emit the day-tagged 30-minute grid. -/
def create_doctor_time_slots (availableDays : List Nat) (startMin endMin : Nat) :
    List (Nat × Nat × Nat) :=
  availableDays.flatMap (fun day => (generate_slots startMin endMin).map
    (fun p => (day, p.1, p.2)))

/-- The slots generated for one particular day of the week. -/
def slotsOnDay (slots : List (Nat × Nat × Nat)) (day : Nat) : List (Nat × Nat) :=
  (slots.filter (fun t => t.1 == day)).map (fun t => t.2)

/-- Number of status-history rows referencing a given appointment id. -/
def historyCountFor (s : ServerState) (aid : Nat) : Nat :=
  (s.ledger.statusHistory.filter (fun h => h.appointment_id == some aid)).length

/-- A sequential run of `update_appointment_status` calls against one
appointment; each triple is (new status, reason, changed_by). -/
def applyStatusUpdates (s : ServerState) (aid : Nat) :
    List (String × String × String) → ServerState
  | [] => s
  | (ns, r, b) :: rest =>
    applyStatusUpdates ((update_appointment_status s aid ns r b).1) aid rest

/-- Some appointment row with the given id exists in the ledger. -/
def appointmentExists (s : ServerState) (aid : Nat) : Prop :=
  ∃ a ∈ s.ledger.appointments, a.id = aid

/-- A later catalog edit (an UPDATE against the doctors, services or clinics
tables of the services database): the appointments database is untouched. -/
def mutateCatalog (m : Catalog → Catalog) (s : ServerState) : ServerState :=
  { s with catalog := m s.catalog }

/-- Timestamp fields within the ranges `datetime` can ever produce (bounds
needed for the fixed-width reading of the strftime rendering). -/
def validTimestamp (t : Timestamp) : Prop :=
  t.year < 10000 ∧ t.month < 100 ∧ t.day < 100 ∧ t.hour < 100 ∧ t.minute < 100 ∧ t.second < 100

-- Concrete demonstration data, drawn from the seed rows of `db_setup.py`.

/-- Seed clinic 1. -/
def demoClinic : Clinic :=
  { id := 1, name := "HealthCare Plus Clinic", address := "Main Road, Beside SBI Bank",
    phone := "+91-8765-432109", operating_hours := "9:00 AM - 8:00 PM" }

/-- Seed doctor 1 (General Medicine, clinic 1). -/
def demoDoctor : Doctor :=
  { id := 1, name := "Dr. Rajesh Kumar", specialty := "General Medicine",
    phone := "+91-9876-543201", clinic_id := 1 }

/-- A second doctor at the same clinic. -/
def demoDoctor2 : Doctor :=
  { id := 2, name := "Dr. Priya Sharma", specialty := "Cardiology",
    phone := "+91-8765-432102", clinic_id := 1 }

/-- Seed service 1: General Checkup, 45 minutes. -/
def demoService : Service :=
  { id := 1, name := "General Checkup",
    description := "Complete health examination and consultation",
    department := "General Medicine", price := 150, duration_minutes := 45 }

/-- A 10:00 to 10:30 Tuesday slot of doctor 1, available. -/
def demoSlot1 : TimeSlot :=
  { id := 1, doctor_id := 1, day_of_week := 2, start_time := 600, end_time := 630,
    is_available := true }

/-- The following 10:30 to 11:00 slot of doctor 1, available. -/
def demoSlot2 : TimeSlot :=
  { id := 2, doctor_id := 1, day_of_week := 2, start_time := 630, end_time := 660,
    is_available := true }

/-- A catalog holding the demonstration rows. -/
def demoCatalog : Catalog :=
  { clinics := [demoClinic], services := [demoService],
    doctors := [demoDoctor, demoDoctor2], timeSlots := [demoSlot1, demoSlot2] }

/-- Fresh server state: demonstration catalog, empty ledger, AUTOINCREMENT at 1. -/
def demoState : ServerState :=
  { catalog := demoCatalog,
    ledger := { appointments := [], statusHistory := [], nextAppointmentId := 1 } }

/-- A booking instant: 2025-01-06 10:00:00. -/
def demoTime : Timestamp :=
  { year := 2025, month := 1, day := 6, hour := 10, minute := 0, second := 0 }

/-- A later instant in a different second. -/
def demoTime2 : Timestamp :=
  { year := 2025, month := 1, day := 6, hour := 10, minute := 0, second := 5 }

/-- A booking request for doctor 1, service 1, slot 1. -/
def demoBooking1 : BookingData :=
  { patient_name := some "Harsh", doctor_id := 1, service_id := 1, time_slot_id := 1,
    appointment_date := some "2025-01-07", complaint := some "fever" }

/-- A booking request for doctor 1, service 1, slot 2. -/
def demoBooking2 : BookingData :=
  { patient_name := some "Asha", doctor_id := 1, service_id := 1, time_slot_id := 2,
    appointment_date := some "2025-01-07", complaint := some "cough" }

/-- First booking of a sequential double-booking run, at `demoTime`. -/
def doubleBookRun1 : ServerState × BookResult :=
  book_appointment_comprehensive demoState demoBooking1 none demoTime "2025-01-06"

/-- Second booking of the run: a different slot but the same clock second. -/
def doubleBookRun2 : ServerState × BookResult :=
  book_appointment_comprehensive doubleBookRun1.1 demoBooking2 none demoTime "2025-01-06"

/-- Cancelling the appointment created by the first booking. -/
def cancelRun : ServerState × UpdateResult :=
  update_appointment_status doubleBookRun1.1 1 "cancelled" "patient request" "system"

/-- A booking request naming a slot id absent from the catalog. -/
def demoBookingMissingSlot : BookingData :=
  { patient_name := some "Harsh", doctor_id := 1, service_id := 1, time_slot_id := 99,
    appointment_date := some "2025-01-07", complaint := some "fever" }

/-- A booking request whose date, 2025-01-08, is a Wednesday while the
requested slot (id 1) carries day_of_week 2, Tuesday. -/
def demoBookingWrongDay : BookingData :=
  { patient_name := some "Harsh", doctor_id := 1, service_id := 1, time_slot_id := 1,
    appointment_date := some "2025-01-08", complaint := some "fever" }

-- ---------------------------------------------------------------------------
-- Helper lemmas
-- ---------------------------------------------------------------------------

set_option maxRecDepth 10000

/-- Strings with equal character data are equal. -/
theorem string_data_inj {s t : String} (h : s.data = t.data) : s = t := by
  cases s
  cases t
  exact congrArg String.mk h

/-- Injectivity of `pad2` below 100 (its two-digit range). -/
theorem pad2_injOn : ∀ m, m < 100 → ∀ n, n < 100 → pad2 m = pad2 n → m = n := by decide

/-- Rendering width: `pad2` renders values below 100 with exactly two characters. -/
theorem pad2_length : ∀ n, n < 100 → (pad2 n).length = 2 := by decide

/-- Character-data version of `pad2_length`. -/
theorem pad2_data_length {n : Nat} (h : n < 100) : (pad2 n).data.length = 2 :=
  pad2_length n h

/-- Splitting a character-list equation at a leading chunk of known width two. -/
theorem chunk2_inj {a b s t : List Char} (ha : a.length = 2) (hb : b.length = 2)
    (h : a ++ s = b ++ t) : a = b ∧ s = t :=
  List.append_inj h (ha.trans hb.symm)

/-- The fixed-width strftime rendering is injective on timestamps with
in-range fields. -/
theorem strftimeCompact_inj : ∀ t u : Timestamp, validTimestamp t → validTimestamp u →
    strftimeCompact t = strftimeCompact u → t = u := by
  intro t u ht hu h
  simp only [validTimestamp] at ht hu
  obtain ⟨hty, htmo, htd, hth, htmi, hts⟩ := ht
  obtain ⟨huy, humo, hud, huh, humi, hus⟩ := hu
  have hd := congrArg String.data h
  simp only [strftimeCompact, pad4, String.data_append, List.append_assoc] at hd
  obtain ⟨h1, hd⟩ := chunk2_inj (pad2_data_length (by omega)) (pad2_data_length (by omega)) hd
  obtain ⟨h2, hd⟩ := chunk2_inj (pad2_data_length (by omega)) (pad2_data_length (by omega)) hd
  obtain ⟨h3, hd⟩ := chunk2_inj (pad2_data_length htmo) (pad2_data_length humo) hd
  obtain ⟨h4, hd⟩ := chunk2_inj (pad2_data_length htd) (pad2_data_length hud) hd
  obtain ⟨h5, hd⟩ := chunk2_inj (pad2_data_length hth) (pad2_data_length huh) hd
  obtain ⟨h6, h7⟩ := chunk2_inj (pad2_data_length htmi) (pad2_data_length humi) hd
  have e1 := pad2_injOn _ (by omega) _ (by omega) (string_data_inj h1)
  have e2 := pad2_injOn _ (by omega) _ (by omega) (string_data_inj h2)
  have e3 := pad2_injOn _ htmo _ humo (string_data_inj h3)
  have e4 := pad2_injOn _ htd _ hud (string_data_inj h4)
  have e5 := pad2_injOn _ hth _ huh (string_data_inj h5)
  have e6 := pad2_injOn _ htmi _ humi (string_data_inj h6)
  have e7 := pad2_injOn _ hts _ hus (string_data_inj h7)
  cases t
  cases u
  simp only [Timestamp.mk.injEq]
  simp only at e1 e2 e3 e4 e5 e6 e7
  exact ⟨by omega, e3, e4, e5, e6, e7⟩

/-- The fixed `APT-` prefix can be cancelled. -/
theorem apt_prefix_cancel {a b : String} (h : "APT-" ++ a = "APT-" ++ b) : a = b := by
  have hd := congrArg String.data h
  simp only [String.data_append] at hd
  exact string_data_inj (List.append_cancel_left hd)

/-- Unfolding of `book_appointment_comprehensive` on the path where all three
validations pass. -/
theorem book_ok {s : ServerState} {data : BookingData} {sr : Option SummaryData}
    {t : Timestamp} {nd : String} {d : Doctor} {c : Clinic} {sv : Service}
    {slot : TimeSlot}
    (hd : findDoctor s.catalog data.doctor_id = some d)
    (hc : findClinic s.catalog d.clinic_id = some c)
    (hs : findService s.catalog data.service_id = some sv)
    (hslot : slotCheckComprehensive s.catalog data.time_slot_id data.doctor_id = some slot) :
    book_appointment_comprehensive s data sr t nd =
      ((bookCommit s data.time_slot_id (bookRow s data sr t nd d c sv slot)).1,
       .ok (generate_appointment_number t)
         (bookCommit s data.time_slot_id (bookRow s data sr t nd d c sv slot)).2
         slot.start_time ((slot.start_time + sv.duration_minutes) % 1440)
         (data.appointment_date.getD nd) (bookSummary sr data sv)) := by
  unfold book_appointment_comprehensive
  simp only [hd, hc, hs, hslot]
  rfl

/-- Behaviour of `bookCommit` when the appointment number is not yet in the ledger: the row
is appended, one history entry referencing it is written, the slot is flipped. -/
theorem bookCommit_fresh {s : ServerState} {slotId : Nat} {row : Appointment}
    (h : ∀ a ∈ s.ledger.appointments, a.appointment_number ≠ row.appointment_number) :
    bookCommit s slotId row =
      ({ catalog := markSlotUnavailable s.catalog slotId,
         ledger := { appointments := s.ledger.appointments ++ [row],
                     statusHistory := s.ledger.statusHistory ++
                       [{ appointment_id := some row.id, old_status := none,
                          new_status := "scheduled", changed_by := "ai_assistant",
                          reason := "Initial booking" }],
                     nextAppointmentId := s.ledger.nextAppointmentId + 1 } },
       some row.id) := by
  have hany : s.ledger.appointments.any
      (fun b => b.appointment_number == row.appointment_number) = false := by
    rw [List.any_eq_false]
    intro a ha
    simpa using h a ha
  unfold bookCommit insertAppointment
  rw [hany]
  rfl

/-- Behaviour of `bookCommit` when the appointment number already occurs in the ledger: the
INSERT is rejected by the UNIQUE constraint and silently dropped, the history
entry records a NULL appointment id, but the slot is still flipped. -/
theorem bookCommit_dup {s : ServerState} {slotId : Nat} {row : Appointment}
    (h : ∃ a ∈ s.ledger.appointments, a.appointment_number = row.appointment_number) :
    bookCommit s slotId row =
      ({ catalog := markSlotUnavailable s.catalog slotId,
         ledger := { s.ledger with statusHistory := s.ledger.statusHistory ++
                       [{ appointment_id := none, old_status := none,
                          new_status := "scheduled", changed_by := "ai_assistant",
                          reason := "Initial booking" }] } },
       none) := by
  have hany : s.ledger.appointments.any
      (fun b => b.appointment_number == row.appointment_number) = true := by
    rw [List.any_eq_true]
    obtain ⟨a, ha, he⟩ := h
    exact ⟨a, ha, by simpa using he⟩
  unfold bookCommit insertAppointment
  rw [hany]
  rfl

/-- After `UPDATE time_slots SET is_available = 0 WHERE id = ?`, the
comprehensive slot validation can no longer find that slot id. -/
theorem slotCheck_after_mark (c : Catalog) (slotId did : Nat) :
    slotCheckComprehensive (markSlotUnavailable c slotId) slotId did = none := by
  rw [slotCheckComprehensive, List.find?_eq_none]
  intro ts2 hmem
  simp only [markSlotUnavailable, List.mem_map] at hmem
  obtain ⟨ts, hts, rfl⟩ := hmem
  by_cases h : ts.id = slotId
  · simp [h]
  · simp [h]

/-- One-step unfolding of the slot-generation loop: exactly when another full
30-minute window fits, it is emitted and the loop advances. -/
theorem generate_slots_eq (cur fin : Nat) :
    generate_slots cur fin =
      if cur + 30 ≤ fin then (cur, cur + 30) :: generate_slots (cur + 30) fin
      else [] := by
  rw [generate_slots]
  by_cases h1 : cur < fin
  · by_cases h2 : cur + 30 ≤ fin
    · simp [h1, h2]
    · simp [h1, h2]
  · have h2 : ¬ (cur + 30 ≤ fin) := by omega
    simp [h1, h2]

/-- Every generated slot is 30 minutes wide, starts no earlier than the loop
start, and ends no later than the working-hours end. -/
theorem generate_slots_sound_aux : ∀ (n cur fin : Nat), fin - cur ≤ n →
    ∀ p ∈ generate_slots cur fin, p.2 = p.1 + 30 ∧ cur ≤ p.1 ∧ p.2 ≤ fin := by
  intro n
  induction n with
  | zero =>
    intro cur fin hle p hp
    rw [generate_slots_eq, if_neg (by omega)] at hp
    simp at hp
  | succ k ih =>
    intro cur fin hle p hp
    rw [generate_slots_eq] at hp
    by_cases h : cur + 30 ≤ fin
    · rw [if_pos h] at hp
      rcases List.mem_cons.1 hp with hp | hp
      · subst hp
        exact ⟨rfl, Nat.le_refl _, h⟩
      · have h3 := ih (cur + 30) fin (by omega) p hp
        exact ⟨h3.1, by omega, h3.2.2⟩
    · rw [if_neg h] at hp
      simp at hp

/-- Version of `generate_slots_sound_aux` without the fuel bound. -/
theorem generate_slots_sound (cur fin : Nat) :
    ∀ p ∈ generate_slots cur fin, p.2 = p.1 + 30 ∧ cur ≤ p.1 ∧ p.2 ≤ fin :=
  generate_slots_sound_aux (fin - cur) cur fin (Nat.le_refl _)

/-- The head of a nonempty generated grid starts at the loop start. -/
theorem generate_slots_head : ∀ (cur fin : Nat) (p : Nat × Nat),
    (generate_slots cur fin).head? = some p → p.1 = cur := by
  intro cur fin p hp
  rw [generate_slots_eq] at hp
  by_cases h : cur + 30 ≤ fin
  · rw [if_pos h] at hp
    simp only [List.head?_cons, Option.some.injEq] at hp
    rw [← hp]
  · rw [if_neg h] at hp
    simp at hp

/-- The generated grid is contiguous: each slot ends where the next begins. -/
theorem generate_slots_chain : ∀ (n cur fin : Nat), fin - cur ≤ n →
    List.Chain' (fun a b : Nat × Nat => a.2 = b.1) (generate_slots cur fin) := by
  intro n
  induction n with
  | zero =>
    intro cur fin hle
    rw [generate_slots_eq, if_neg (by omega)]
    exact List.chain'_nil
  | succ k ih =>
    intro cur fin hle
    rw [generate_slots_eq]
    by_cases h : cur + 30 ≤ fin
    · rw [if_pos h]
      rw [List.chain'_cons']
      refine ⟨?_, ih (cur + 30) fin (by omega)⟩
      intro q hq
      exact (generate_slots_head (cur + 30) fin q hq).symm
    · rw [if_neg h]
      exact List.chain'_nil

/-- The generated grid is pairwise non-overlapping: any earlier slot ends no
later than any later slot starts. -/
theorem generate_slots_pairwise : ∀ (n cur fin : Nat), fin - cur ≤ n →
    (generate_slots cur fin).Pairwise (fun a b : Nat × Nat => a.2 ≤ b.1) := by
  intro n
  induction n with
  | zero =>
    intro cur fin hle
    rw [generate_slots_eq, if_neg (by omega)]
    exact List.Pairwise.nil
  | succ k ih =>
    intro cur fin hle
    rw [generate_slots_eq]
    by_cases h : cur + 30 ≤ fin
    · rw [if_pos h]
      refine List.Pairwise.cons ?_ (ih (cur + 30) fin (by omega))
      intro q hq
      exact (generate_slots_sound (cur + 30) fin q hq).2.1
    · rw [if_neg h]
      exact List.Pairwise.nil

/-- Restricting one day-tagged block to its own day recovers the plain grid;
restricting it to another day yields nothing. -/
theorem slotsOnDay_block (l : List (Nat × Nat)) (a dy : Nat) :
    slotsOnDay (l.map (fun p => (a, p.1, p.2))) dy = if a = dy then l else [] := by
  induction l with
  | nil => by_cases h : a = dy <;> simp [slotsOnDay, h]
  | cons p rest ih =>
    by_cases h : a = dy
    · simp only [slotsOnDay, List.map_cons, List.filter_cons] at ih ⊢
      simp [h] at ih ⊢
      exact ih
    · simp only [slotsOnDay, List.map_cons, List.filter_cons] at ih ⊢
      simp [h] at ih ⊢
      exact ih

/-- Distribution of `slotsOnDay` over list append. -/
theorem slotsOnDay_append (x y : List (Nat × Nat × Nat)) (dy : Nat) :
    slotsOnDay (x ++ y) dy = slotsOnDay x dy ++ slotsOnDay y dy := by
  simp [slotsOnDay, List.filter_append]

/-- Unfolding of the per-doctor loop over one available day. -/
theorem create_doctor_time_slots_cons (a : Nat) (rest : List Nat) (s e : Nat) :
    create_doctor_time_slots (a :: rest) s e =
      ((generate_slots s e).map (fun p => (a, p.1, p.2))) ++
        create_doctor_time_slots rest s e := by
  rw [create_doctor_time_slots, create_doctor_time_slots, List.flatMap_cons]

/-- Days not in the available-days list generate no slots. -/
theorem slotsOnDay_not_mem : ∀ (days : List Nat) (s e dy : Nat), dy ∉ days →
    slotsOnDay (create_doctor_time_slots days s e) dy = [] := by
  intro days
  induction days with
  | nil => intro s e dy h; simp [create_doctor_time_slots, slotsOnDay]
  | cons a rest ih =>
    intro s e dy h
    rw [create_doctor_time_slots_cons, slotsOnDay_append]
    have ha : a ≠ dy := by
      intro he
      exact h (he ▸ List.mem_cons_self a rest)
    rw [slotsOnDay_block, if_neg ha]
    rw [List.nil_append]
    exact ih s e dy (fun hm => h (List.mem_cons_of_mem a hm))

/-- For a day in the available-days list (listed once, as in the seed data),
the slots generated for that day are exactly the working-hours grid. -/
theorem slotsOnDay_create : ∀ (days : List Nat) (s e dy : Nat), days.Nodup → dy ∈ days →
    slotsOnDay (create_doctor_time_slots days s e) dy = generate_slots s e := by
  intro days
  induction days with
  | nil => intro s e dy hnd hmem; simp at hmem
  | cons a rest ih =>
    intro s e dy hnd hmem
    rw [create_doctor_time_slots_cons, slotsOnDay_append]
    rcases List.mem_cons.1 hmem with he | hmem2
    · subst he
      rw [slotsOnDay_block, if_pos rfl]
      rw [slotsOnDay_not_mem rest s e _ (List.nodup_cons.1 hnd).1, List.append_nil]
    · have ha : a ≠ dy := by
        intro he
        exact (List.nodup_cons.1 hnd).1 (he ▸ hmem2)
      rw [slotsOnDay_block, if_neg ha, List.nil_append]
      exact ih s e dy (List.nodup_cons.1 hnd).2 hmem2

/-- One `update_appointment_status` call on an existing appointment succeeds,
keeps the appointment present, and appends exactly one history row referencing
it. -/
theorem update_status_step (s : ServerState) (aid : Nat) (ns r b : String)
    (h : appointmentExists s aid) :
    appointmentExists ((update_appointment_status s aid ns r b).1) aid ∧
    historyCountFor ((update_appointment_status s aid ns r b).1) aid =
      historyCountFor s aid + 1 := by
  obtain ⟨a, ha, haid⟩ := h
  have hfind : (s.ledger.appointments.find? (fun x => x.id == aid)).isSome := by
    rw [List.find?_isSome]
    exact ⟨a, ha, by simpa using haid⟩
  cases hf : s.ledger.appointments.find? (fun x => x.id == aid) with
  | none => rw [hf] at hfind; simp at hfind
  | some apt =>
    unfold update_appointment_status
    rw [hf]
    constructor
    · refine ⟨if a.id == aid then { a with status := ns } else a, List.mem_map.2 ⟨a, ha, rfl⟩, ?_⟩
      simp [haid]
    · unfold historyCountFor
      simp only [List.filter_append, List.length_append]
      have : (List.filter (fun h => h.appointment_id == some aid)
          [({ appointment_id := some aid, old_status := some apt.status, new_status := ns,
              changed_by := b, reason := r } : HistoryEntry)]).length = 1 := by
        simp
      omega

/-- A run of `update_appointment_status` calls on an existing appointment adds
one history row per call. -/
theorem apply_updates_count : ∀ (us : List (String × String × String))
    (s : ServerState) (aid : Nat), appointmentExists s aid →
    historyCountFor (applyStatusUpdates s aid us) aid = historyCountFor s aid + us.length := by
  intro us
  induction us with
  | nil =>
    intro s aid h
    simp [applyStatusUpdates]
  | cons u rest ih =>
    intro s aid h
    obtain ⟨ns, r, b⟩ := u
    obtain ⟨hex, hcount⟩ := update_status_step s aid ns r b h
    show historyCountFor (applyStatusUpdates ((update_appointment_status s aid ns r b).1) aid rest) aid = _
    rw [ih _ _ hex, hcount]
    simp only [List.length_cons]
    omega

/-- The deterministic fallback summary is never the empty string. -/
theorem fallback_ne_empty (nm : Option String) (sv cp : String) :
    fallback_ai_patient_summary nm sv cp ≠ "" := by
  intro h
  have hlen := congrArg String.length h
  rw [fallback_ai_patient_summary] at hlen
  simp only [String.length_append] at hlen
  have h8 : "Patient ".length = 8 := rfl
  have h0 : "".length = 0 := rfl
  omega

-- ---------------------------------------------------------------------------
-- Claims
-- ---------------------------------------------------------------------------

/-- Claim C2, counterexample. Booking slot 1 and then calling
`update_appointment_status` with newStatus cancelled succeeds, but the slot's
availability flag stays false (first list entry) and re-reserving the same
slot fails with the SlotUnavailable reply, contradicting the claim that
cancellation triggers a release so that a subsequent reserve succeeds. -/
theorem claim2_counterexample :
    cancelRun.2 = UpdateResult.ok "scheduled" "cancelled" ∧
    cancelRun.1.catalog.timeSlots.map (fun ts => ts.is_available) = [false, true] ∧
    (book_appointment_comprehensive cancelRun.1 demoBooking1 none demoTime2 "2025-01-07").2 =
      BookResult.err "Time slot not available" := by
  decide

/-- Claim C2, amended: `update_appointment_status` (in particular with
newStatus cancelled) performs no Slot Allocator release at all — it leaves the
catalog, and hence every slot availability flag and the outcome of any
subsequent reserve check, exactly as before the call. -/
theorem claim2_amended : ∀ (s : ServerState) (aid : Nat) (ns r b : String),
    ((update_appointment_status s aid ns r b).1).catalog = s.catalog ∧
    ∀ slotId did,
      slotCheckComprehensive ((update_appointment_status s aid ns r b).1).catalog slotId did =
        slotCheckComprehensive s.catalog slotId did := by
  intro s aid ns r b
  have hcat : ((update_appointment_status s aid ns r b).1).catalog = s.catalog := by
    unfold update_appointment_status
    cases s.ledger.appointments.find? (fun a => a.id == aid) <;> rfl
  exact ⟨hcat, fun slotId did => by rw [hcat]⟩

/-- Claim C3, counterexample. In the run `doubleBookRun2` the second booking's
ledger INSERT fails (duplicate appointment number, so the ledger still holds
one row), yet the call reports success and slot 2 is left flipped to
unavailable — the failed persistence is neither compensated by a release nor
surfaced as a failure. -/
theorem claim3_counterexample :
    doubleBookRun2.1.ledger.appointments.length = 1 ∧
    doubleBookRun2.2.isSuccess = true ∧
    doubleBookRun2.1.catalog.timeSlots.map (fun ts => ts.is_available) = [false, false] := by
  decide

/-- Claim C3, amended: every explicit failure reply of
`book_appointment_comprehensive` is returned before any write, so on failure
the state (in particular every slot flag) is unchanged; but when the ledger
INSERT itself fails (duplicate appointment number) there is no compensating
release: the ledger is unchanged while the slot is still flipped to
unavailable and the call still reports success. -/
theorem claim3_amended :
    (∀ (s : ServerState) (data : BookingData) (sr : Option SummaryData)
       (t : Timestamp) (nd : String),
       (book_appointment_comprehensive s data sr t nd).2.isSuccess = false →
       (book_appointment_comprehensive s data sr t nd).1 = s) ∧
    (∀ (s : ServerState) (data : BookingData) (sr : Option SummaryData)
       (t : Timestamp) (nd : String) (d : Doctor) (c : Clinic) (sv : Service)
       (slot : TimeSlot),
       findDoctor s.catalog data.doctor_id = some d →
       findClinic s.catalog d.clinic_id = some c →
       findService s.catalog data.service_id = some sv →
       slotCheckComprehensive s.catalog data.time_slot_id data.doctor_id = some slot →
       (∃ a ∈ s.ledger.appointments, a.appointment_number = generate_appointment_number t) →
       (book_appointment_comprehensive s data sr t nd).2.isSuccess = true ∧
       (book_appointment_comprehensive s data sr t nd).1.ledger.appointments =
         s.ledger.appointments ∧
       slotCheckComprehensive (book_appointment_comprehensive s data sr t nd).1.catalog
         data.time_slot_id data.doctor_id = none) := by
  constructor
  · intro s data sr t nd h
    unfold book_appointment_comprehensive at h ⊢
    cases hd : findDoctor s.catalog data.doctor_id with
    | none => simp only [hd]
    | some d =>
      simp only [hd] at h ⊢
      cases hc : findClinic s.catalog d.clinic_id with
      | none => simp only [hc]
      | some c =>
        simp only [hc] at h ⊢
        cases hs2 : findService s.catalog data.service_id with
        | none => simp only [hs2]
        | some sv =>
          simp only [hs2] at h ⊢
          cases hslot : slotCheckComprehensive s.catalog data.time_slot_id data.doctor_id with
          | none => simp only [hslot]
          | some slot =>
            simp only [hslot] at h
            simp [BookResult.isSuccess] at h
  · intro s data sr t nd d c sv slot hd hc hs hslot hdup
    have hrowdup : ∃ a ∈ s.ledger.appointments,
        a.appointment_number = (bookRow s data sr t nd d c sv slot).appointment_number := by
      obtain ⟨a, ha, he⟩ := hdup
      exact ⟨a, ha, by simpa [bookRow] using he⟩
    rw [book_ok hd hc hs hslot, bookCommit_dup hrowdup]
    exact ⟨rfl, rfl, slotCheck_after_mark _ _ _⟩

/-- Claim C3, amended, witness: a booking with a missing slot id fails and
leaves the state untouched, and the duplicate-number second booking of
`doubleBookRun2` reports success with an unchanged ledger and a consumed
slot. -/
theorem claim3_amended_witness :
    (book_appointment_comprehensive demoState demoBookingMissingSlot none demoTime "2025-01-06").1 =
      demoState ∧
    (book_appointment_comprehensive doubleBookRun1.1 demoBooking2 none demoTime "2025-01-06").2.isSuccess =
      true ∧
    (book_appointment_comprehensive doubleBookRun1.1 demoBooking2 none demoTime "2025-01-06").1.ledger.appointments =
      doubleBookRun1.1.ledger.appointments := by
  refine ⟨claim3_amended.1 demoState demoBookingMissingSlot none demoTime "2025-01-06" (by decide), ?_, ?_⟩
  · exact (claim3_amended.2 doubleBookRun1.1 demoBooking2 none demoTime "2025-01-06"
      demoDoctor demoClinic demoService demoSlot2 (by decide) (by decide) (by decide)
      (by decide) (by decide)).1
  · exact (claim3_amended.2 doubleBookRun1.1 demoBooking2 none demoTime "2025-01-06"
      demoDoctor demoClinic demoService demoSlot2 (by decide) (by decide) (by decide)
      (by decide) (by decide)).2.1

/-- Claim C4: on a successful booking the persisted appointment's end time is
the reserved slot's start time plus the resolved service's duration in
minutes (for any service duration that does not push past midnight), not the
slot's own end time. -/
theorem claim4_theorem : ∀ (s : ServerState) (data : BookingData)
    (sr : Option SummaryData) (t : Timestamp) (nd : String) (d : Doctor)
    (c : Clinic) (sv : Service) (slot : TimeSlot),
    findDoctor s.catalog data.doctor_id = some d →
    findClinic s.catalog d.clinic_id = some c →
    findService s.catalog data.service_id = some sv →
    slotCheckComprehensive s.catalog data.time_slot_id data.doctor_id = some slot →
    (∀ a ∈ s.ledger.appointments, a.appointment_number ≠ generate_appointment_number t) →
    slot.start_time + sv.duration_minutes < 1440 →
    (book_appointment_comprehensive s data sr t nd).2.isSuccess = true ∧
    (book_appointment_comprehensive s data sr t nd).1.ledger.appointments =
      s.ledger.appointments ++ [bookRow s data sr t nd d c sv slot] ∧
    (bookRow s data sr t nd d c sv slot).appointment_end_time =
      slot.start_time + sv.duration_minutes := by
  intro s data sr t nd d c sv slot hd hc hs hslot hfresh hlt
  have hrow : ∀ a ∈ s.ledger.appointments,
      a.appointment_number ≠ (bookRow s data sr t nd d c sv slot).appointment_number := by
    intro a ha
    simpa [bookRow] using hfresh a ha
  rw [book_ok hd hc hs hslot, bookCommit_fresh hrow]
  refine ⟨rfl, rfl, ?_⟩
  simp only [bookRow]
  exact Nat.mod_eq_of_lt hlt

/-- Claim C4, witness: booking the 10:00 to 10:30 slot with the 45-minute
General Checkup service succeeds and persists an end time of 10:45 (645
minutes), differing from the slot's own 10:30 end. -/
theorem claim4_witness :
    (book_appointment_comprehensive demoState demoBooking1 none demoTime "2025-01-06").2.isSuccess =
      true ∧
    (book_appointment_comprehensive demoState demoBooking1 none demoTime "2025-01-06").1.ledger.appointments =
      demoState.ledger.appointments ++
        [bookRow demoState demoBooking1 none demoTime "2025-01-06" demoDoctor demoClinic
          demoService demoSlot1] ∧
    (bookRow demoState demoBooking1 none demoTime "2025-01-06" demoDoctor demoClinic
      demoService demoSlot1).appointment_end_time =
      demoSlot1.start_time + demoService.duration_minutes :=
  claim4_theorem demoState demoBooking1 none demoTime "2025-01-06" demoDoctor demoClinic
    demoService demoSlot1 (by decide) (by decide) (by decide) (by decide) (by decide)
    (by decide)

/-- Claim C5: a successful booking writes exactly one initial history entry
for the new appointment, and every subsequent `update_appointment_status` call
on it (including ones repeating the current status) appends exactly one more,
so after any run of n update calls the appointment has n + 1 history rows. -/
theorem claim5_theorem : ∀ (s : ServerState) (data : BookingData)
    (sr : Option SummaryData) (t : Timestamp) (nd : String) (d : Doctor)
    (c : Clinic) (sv : Service) (slot : TimeSlot)
    (us : List (String × String × String)),
    findDoctor s.catalog data.doctor_id = some d →
    findClinic s.catalog d.clinic_id = some c →
    findService s.catalog data.service_id = some sv →
    slotCheckComprehensive s.catalog data.time_slot_id data.doctor_id = some slot →
    (∀ a ∈ s.ledger.appointments, a.appointment_number ≠ generate_appointment_number t) →
    (∀ h ∈ s.ledger.statusHistory, h.appointment_id ≠ some s.ledger.nextAppointmentId) →
    historyCountFor
        (applyStatusUpdates (book_appointment_comprehensive s data sr t nd).1
          s.ledger.nextAppointmentId us)
        s.ledger.nextAppointmentId = us.length + 1 := by
  intro s data sr t nd d c sv slot us hd hc hs hslot hfresh hfreshHist
  have hrow : ∀ a ∈ s.ledger.appointments,
      a.appointment_number ≠ (bookRow s data sr t nd d c sv slot).appointment_number := by
    intro a ha
    simpa [bookRow] using hfresh a ha
  rw [book_ok hd hc hs hslot, bookCommit_fresh hrow]
  have hex : appointmentExists
      ({ catalog := markSlotUnavailable s.catalog data.time_slot_id,
         ledger := { appointments := s.ledger.appointments ++ [bookRow s data sr t nd d c sv slot],
                     statusHistory := s.ledger.statusHistory ++
                       [{ appointment_id := some (bookRow s data sr t nd d c sv slot).id,
                          old_status := none, new_status := "scheduled",
                          changed_by := "ai_assistant", reason := "Initial booking" }],
                     nextAppointmentId := s.ledger.nextAppointmentId + 1 } } : ServerState)
      s.ledger.nextAppointmentId := by
    refine ⟨bookRow s data sr t nd d c sv slot, ?_, ?_⟩
    · exact List.mem_append_right _ (List.mem_singleton.2 rfl)
    · rfl
  rw [apply_updates_count us _ _ hex]
  have h1 : historyCountFor
      ({ catalog := markSlotUnavailable s.catalog data.time_slot_id,
         ledger := { appointments := s.ledger.appointments ++ [bookRow s data sr t nd d c sv slot],
                     statusHistory := s.ledger.statusHistory ++
                       [{ appointment_id := some (bookRow s data sr t nd d c sv slot).id,
                          old_status := none, new_status := "scheduled",
                          changed_by := "ai_assistant", reason := "Initial booking" }],
                     nextAppointmentId := s.ledger.nextAppointmentId + 1 } } : ServerState)
      s.ledger.nextAppointmentId = 1 := by
    unfold historyCountFor
    simp only [List.filter_append, List.length_append]
    have hnil : s.ledger.statusHistory.filter
        (fun h => h.appointment_id == some s.ledger.nextAppointmentId) = [] := by
      rw [List.filter_eq_nil_iff]
      intro h hh
      simpa using hfreshHist h hh
    rw [hnil]
    simp [bookRow]
  rw [h1]
  omega

/-- Claim C5, witness: booking into the empty demo ledger and then issuing two
status updates (one of them re-setting the current status) leaves exactly
three history rows for appointment 1. -/
theorem claim5_witness :
    historyCountFor
        (applyStatusUpdates
          (book_appointment_comprehensive demoState demoBooking1 none demoTime "2025-01-06").1
          demoState.ledger.nextAppointmentId
          [("scheduled", "", "system"), ("cancelled", "patient request", "system")])
        demoState.ledger.nextAppointmentId = 3 :=
  claim5_theorem demoState demoBooking1 none demoTime "2025-01-06" demoDoctor demoClinic
    demoService demoSlot1 [("scheduled", "", "system"), ("cancelled", "patient request", "system")]
    (by decide) (by decide) (by decide) (by decide) (by decide) (by decide)

/-- Claim C6: when the Gemini summary call fails, the booking (with passing
doctor/service/slot checks) still succeeds, and the persisted row's summary is
the deterministic fallback template built from the patient name, service name
and complaint — a non-empty string. -/
theorem claim6_theorem : ∀ (s : ServerState) (data : BookingData) (t : Timestamp)
    (nd : String) (d : Doctor) (c : Clinic) (sv : Service) (slot : TimeSlot),
    findDoctor s.catalog data.doctor_id = some d →
    findClinic s.catalog d.clinic_id = some c →
    findService s.catalog data.service_id = some sv →
    slotCheckComprehensive s.catalog data.time_slot_id data.doctor_id = some slot →
    (∀ a ∈ s.ledger.appointments, a.appointment_number ≠ generate_appointment_number t) →
    (book_appointment_comprehensive s data none t nd).2.isSuccess = true ∧
    (book_appointment_comprehensive s data none t nd).1.ledger.appointments =
      s.ledger.appointments ++ [bookRow s data none t nd d c sv slot] ∧
    (bookRow s data none t nd d c sv slot).ai_patient_summary =
      fallback_ai_patient_summary data.patient_name sv.name (data.complaint.getD "") ∧
    (bookRow s data none t nd d c sv slot).ai_patient_summary ≠ "" := by
  intro s data t nd d c sv slot hd hc hs hslot hfresh
  have hrow : ∀ a ∈ s.ledger.appointments,
      a.appointment_number ≠ (bookRow s data none t nd d c sv slot).appointment_number := by
    intro a ha
    simpa [bookRow] using hfresh a ha
  rw [book_ok hd hc hs hslot, bookCommit_fresh hrow]
  refine ⟨rfl, rfl, rfl, ?_⟩
  exact fallback_ne_empty data.patient_name sv.name (data.complaint.getD "")

/-- Claim C6, witness: the demo booking with a failed summary call succeeds
and persists the concrete fallback summary, which is non-empty. -/
theorem claim6_witness :
    (book_appointment_comprehensive demoState demoBooking1 none demoTime "2025-01-06").2.isSuccess =
      true ∧
    (book_appointment_comprehensive demoState demoBooking1 none demoTime "2025-01-06").1.ledger.appointments =
      demoState.ledger.appointments ++
        [bookRow demoState demoBooking1 none demoTime "2025-01-06" demoDoctor demoClinic
          demoService demoSlot1] ∧
    (bookRow demoState demoBooking1 none demoTime "2025-01-06" demoDoctor demoClinic
      demoService demoSlot1).ai_patient_summary =
      fallback_ai_patient_summary demoBooking1.patient_name demoService.name
        (demoBooking1.complaint.getD "") ∧
    (bookRow demoState demoBooking1 none demoTime "2025-01-06" demoDoctor demoClinic
      demoService demoSlot1).ai_patient_summary ≠ "" :=
  claim6_theorem demoState demoBooking1 demoTime "2025-01-06" demoDoctor demoClinic
    demoService demoSlot1 (by decide) (by decide) (by decide) (by decide) (by decide)

/-- Claim C7: the persisted appointment row copies every doctor, clinic and
service snapshot field by value out of the catalog rows resolved at booking
time, and a later mutation of the catalog (any edit of the services database)
leaves the appointments database — hence every persisted snapshot field —
unchanged. -/
theorem claim7_theorem : ∀ (s : ServerState) (data : BookingData)
    (sr : Option SummaryData) (t : Timestamp) (nd : String) (d : Doctor)
    (c : Clinic) (sv : Service) (slot : TimeSlot) (m : Catalog → Catalog),
    findDoctor s.catalog data.doctor_id = some d →
    findClinic s.catalog d.clinic_id = some c →
    findService s.catalog data.service_id = some sv →
    slotCheckComprehensive s.catalog data.time_slot_id data.doctor_id = some slot →
    (∀ a ∈ s.ledger.appointments, a.appointment_number ≠ generate_appointment_number t) →
    (book_appointment_comprehensive s data sr t nd).1.ledger.appointments =
      s.ledger.appointments ++ [bookRow s data sr t nd d c sv slot] ∧
    (bookRow s data sr t nd d c sv slot).doctor_name = d.name ∧
    (bookRow s data sr t nd d c sv slot).doctor_specialty = d.specialty ∧
    (bookRow s data sr t nd d c sv slot).doctor_phone = d.phone ∧
    (bookRow s data sr t nd d c sv slot).clinic_name = c.name ∧
    (bookRow s data sr t nd d c sv slot).clinic_address = c.address ∧
    (bookRow s data sr t nd d c sv slot).clinic_phone = c.phone ∧
    (bookRow s data sr t nd d c sv slot).clinic_operating_hours = c.operating_hours ∧
    (bookRow s data sr t nd d c sv slot).service_name = sv.name ∧
    (bookRow s data sr t nd d c sv slot).service_description = sv.description ∧
    (bookRow s data sr t nd d c sv slot).service_department = sv.department ∧
    (bookRow s data sr t nd d c sv slot).service_price = sv.price ∧
    (bookRow s data sr t nd d c sv slot).service_duration_minutes = sv.duration_minutes ∧
    (mutateCatalog m (book_appointment_comprehensive s data sr t nd).1).ledger =
      (book_appointment_comprehensive s data sr t nd).1.ledger := by
  intro s data sr t nd d c sv slot m hd hc hs hslot hfresh
  have hrow : ∀ a ∈ s.ledger.appointments,
      a.appointment_number ≠ (bookRow s data sr t nd d c sv slot).appointment_number := by
    intro a ha
    simpa [bookRow] using hfresh a ha
  rw [book_ok hd hc hs hslot, bookCommit_fresh hrow]
  exact ⟨rfl, rfl, rfl, rfl, rfl, rfl, rfl, rfl, rfl, rfl, rfl, rfl, rfl, rfl⟩

/-- Claim C7, witness: the concrete demo booking persists the seed doctor,
clinic and service values, and deleting every doctor from the catalog
afterwards does not change the ledger. -/
theorem claim7_witness :
    (book_appointment_comprehensive demoState demoBooking1 none demoTime "2025-01-06").1.ledger.appointments =
      demoState.ledger.appointments ++
        [bookRow demoState demoBooking1 none demoTime "2025-01-06" demoDoctor demoClinic
          demoService demoSlot1] ∧
    (bookRow demoState demoBooking1 none demoTime "2025-01-06" demoDoctor demoClinic
      demoService demoSlot1).doctor_name = demoDoctor.name ∧
    (mutateCatalog (fun cat => { cat with doctors := [] })
        (book_appointment_comprehensive demoState demoBooking1 none demoTime "2025-01-06").1).ledger =
      (book_appointment_comprehensive demoState demoBooking1 none demoTime "2025-01-06").1.ledger := by
  have h := claim7_theorem demoState demoBooking1 none demoTime "2025-01-06" demoDoctor
    demoClinic demoService demoSlot1 (fun cat => { cat with doctors := [] })
    (by decide) (by decide) (by decide) (by decide) (by decide)
  exact ⟨h.1, h.2.1, h.2.2.2.2.2.2.2.2.2.2.2.2.2⟩

/-- Claim C8, counterexample. Two sequential bookings of different slots
within the same clock second both report success and both carry the identical
appointment number APT-20250106100000 (the second ledger row is silently
dropped by the UNIQUE constraint, so only one row persists), refuting the
claim that distinct successful bookings receive distinct numbers. -/
theorem claim8_counterexample :
    doubleBookRun1.2.isSuccess = true ∧
    doubleBookRun2.2.isSuccess = true ∧
    doubleBookRun1.2.numberOf = some "APT-20250106100000" ∧
    doubleBookRun2.2.numberOf = some "APT-20250106100000" ∧
    demoBooking1.time_slot_id ≠ demoBooking2.time_slot_id ∧
    doubleBookRun2.1.ledger.appointments.length = 1 := by
  decide

/-- Claim C8, amended: every booking's appointment number is the fixed APT-
prefix plus the second-granularity strftime rendering of the booking instant;
bookings whose timestamps differ (with fields in `datetime` range) receive
distinct numbers, but two successful bookings in the same clock second share
one number. -/
theorem claim8_amended :
    (∀ t : Timestamp, generate_appointment_number t = "APT-" ++ strftimeCompact t) ∧
    (∀ t u : Timestamp, validTimestamp t → validTimestamp u → t ≠ u →
      generate_appointment_number t ≠ generate_appointment_number u) := by
  constructor
  · intro t
    rfl
  · intro t u ht hu hne heq
    exact hne (strftimeCompact_inj t u ht hu (apt_prefix_cancel heq))

/-- Claim C8, amended, witness: the two demo instants differ by five seconds
and indeed produce distinct appointment numbers. -/
theorem claim8_amended_witness :
    generate_appointment_number demoTime = "APT-" ++ strftimeCompact demoTime ∧
    generate_appointment_number demoTime ≠ generate_appointment_number demoTime2 :=
  ⟨claim8_amended.1 demoTime,
   claim8_amended.2 demoTime demoTime2 (by unfold validTimestamp; decide)
     (by unfold validTimestamp; decide) (by decide)⟩

/-- Claim C9: for any doctor working-hours range and any day in the doctor's
available-days list (each day listed once, as in the seed data), the catalog
slots generated for that day form the fixed 30-minute grid: every slot is 30
minutes wide and lies inside the working hours (no slot ends past the
working-hours end), consecutive slots are contiguous (each ends where the next
starts), and the slots are pairwise non-overlapping. -/
theorem claim9_theorem : ∀ (days : List Nat) (startMin endMin dy : Nat),
    days.Nodup → dy ∈ days →
    slotsOnDay (create_doctor_time_slots days startMin endMin) dy =
      generate_slots startMin endMin ∧
    (∀ p ∈ slotsOnDay (create_doctor_time_slots days startMin endMin) dy,
      p.2 = p.1 + 30 ∧ startMin ≤ p.1 ∧ p.2 ≤ endMin) ∧
    List.Chain' (fun a b : Nat × Nat => a.2 = b.1)
      (slotsOnDay (create_doctor_time_slots days startMin endMin) dy) ∧
    (slotsOnDay (create_doctor_time_slots days startMin endMin) dy).Pairwise
      (fun a b : Nat × Nat => a.2 ≤ b.1) := by
  intro days s e dy hnd hmem
  have heq := slotsOnDay_create days s e dy hnd hmem
  refine ⟨heq, ?_, ?_, ?_⟩
  · rw [heq]
    exact generate_slots_sound s e
  · rw [heq]
    exact generate_slots_chain (e - s) s e (Nat.le_refl _)
  · rw [heq]
    exact generate_slots_pairwise (e - s) s e (Nat.le_refl _)

/-- Claim C9, witness: Dr. Rajesh Kumar's seed configuration (days Monday
through Saturday, 9:00 to 17:00) instantiates the grid invariants on
Tuesday. -/
theorem claim9_witness :
    slotsOnDay (create_doctor_time_slots [1, 2, 3, 4, 5, 6] 540 1020) 2 =
      generate_slots 540 1020 ∧
    (∀ p ∈ slotsOnDay (create_doctor_time_slots [1, 2, 3, 4, 5, 6] 540 1020) 2,
      p.2 = p.1 + 30 ∧ 540 ≤ p.1 ∧ p.2 ≤ 1020) ∧
    List.Chain' (fun a b : Nat × Nat => a.2 = b.1)
      (slotsOnDay (create_doctor_time_slots [1, 2, 3, 4, 5, 6] 540 1020) 2) ∧
    (slotsOnDay (create_doctor_time_slots [1, 2, 3, 4, 5, 6] 540 1020) 2).Pairwise
      (fun a b : Nat × Nat => a.2 ≤ b.1) :=
  claim9_theorem [1, 2, 3, 4, 5, 6] 540 1020 2 (by decide) (by decide)

/-- Claim C10: `book_appointment_comprehensive` never validates the supplied
appointment date against the reserved slot — for every date string (or its
absence, in which case the current date is substituted), a booking whose
doctor, service and slot checks pass succeeds, and the arbitrary date is
persisted verbatim, with no constraint relating it to the slot's day_of_week
or the doctor's available days. -/
theorem claim10_theorem : ∀ (s : ServerState) (data : BookingData)
    (sr : Option SummaryData) (t : Timestamp) (nd : String) (d : Doctor)
    (c : Clinic) (sv : Service) (slot : TimeSlot),
    findDoctor s.catalog data.doctor_id = some d →
    findClinic s.catalog d.clinic_id = some c →
    findService s.catalog data.service_id = some sv →
    slotCheckComprehensive s.catalog data.time_slot_id data.doctor_id = some slot →
    (∀ a ∈ s.ledger.appointments, a.appointment_number ≠ generate_appointment_number t) →
    (book_appointment_comprehensive s data sr t nd).2.isSuccess = true ∧
    (book_appointment_comprehensive s data sr t nd).1.ledger.appointments =
      s.ledger.appointments ++ [bookRow s data sr t nd d c sv slot] ∧
    (bookRow s data sr t nd d c sv slot).appointment_date =
      data.appointment_date.getD nd := by
  intro s data sr t nd d c sv slot hd hc hs hslot hfresh
  have hrow : ∀ a ∈ s.ledger.appointments,
      a.appointment_number ≠ (bookRow s data sr t nd d c sv slot).appointment_number := by
    intro a ha
    simpa [bookRow] using hfresh a ha
  rw [book_ok hd hc hs hslot, bookCommit_fresh hrow]
  exact ⟨rfl, rfl, rfl⟩

/-- Claim C10, witness: booking slot 1 (day_of_week 2, a Tuesday) for
2025-01-08 — a Wednesday — succeeds and persists that date verbatim. -/
theorem claim10_witness :
    (book_appointment_comprehensive demoState demoBookingWrongDay none demoTime "2025-01-06").2.isSuccess =
      true ∧
    (book_appointment_comprehensive demoState demoBookingWrongDay none demoTime "2025-01-06").1.ledger.appointments =
      demoState.ledger.appointments ++
        [bookRow demoState demoBookingWrongDay none demoTime "2025-01-06" demoDoctor
          demoClinic demoService demoSlot1] ∧
    (bookRow demoState demoBookingWrongDay none demoTime "2025-01-06" demoDoctor
      demoClinic demoService demoSlot1).appointment_date =
      demoBookingWrongDay.appointment_date.getD "2025-01-06" :=
  claim10_theorem demoState demoBookingWrongDay none demoTime "2025-01-06" demoDoctor
    demoClinic demoService demoSlot1 (by decide) (by decide) (by decide) (by decide)
    (by decide)

/-- Claim C1, counterexample. Slot 1 belongs to doctor 1 and is available, yet
a `book_appointment_intelligent` reserve attempt supplying doctor 2 — a
different doctor than the slot's — succeeds instead of failing with the
SlotUnavailable reply: that tool's slot validation never compares the supplied
doctor with the slot's owner. -/
theorem claim1_counterexample :
    demoSlot1.doctor_id = 1 ∧
    demoSlot1.is_available = true ∧
    (book_appointment_intelligent demoCatalog [] none 2 1 1 (some "2025-01-06")
        "2025-01-06" none none none).2.2 = SimpleBookResult.ok "2025-01-06" 600 := by
  decide

/-- Claim C1, amended: `book_appointment_comprehensive` fails with the
SlotUnavailable reply exactly when no catalog slot has the requested id, the
supplied doctor and a true availability flag — in particular an immediately
repeated booking of the same slot fails — while `book_appointment_intelligent`
fails with that reply exactly when no available slot with the requested id has
an existing owning doctor and clinic, regardless of the doctor supplied. -/
theorem claim1_amended :
    (∀ (s : ServerState) (data : BookingData) (sr : Option SummaryData)
       (t : Timestamp) (nd : String) (d : Doctor) (c : Clinic) (sv : Service),
       findDoctor s.catalog data.doctor_id = some d →
       findClinic s.catalog d.clinic_id = some c →
       findService s.catalog data.service_id = some sv →
       ((book_appointment_comprehensive s data sr t nd).2 =
           BookResult.err "Time slot not available" ↔
         ∀ ts ∈ s.catalog.timeSlots,
           ¬(ts.id = data.time_slot_id ∧ ts.doctor_id = data.doctor_id ∧
             ts.is_available = true))) ∧
    (∀ (s : ServerState) (data data2 : BookingData) (sr sr2 : Option SummaryData)
       (t t2 : Timestamp) (nd nd2 : String) (d : Doctor) (c : Clinic) (sv : Service)
       (slot : TimeSlot) (d2 : Doctor) (c2 : Clinic) (sv2 : Service),
       findDoctor s.catalog data.doctor_id = some d →
       findClinic s.catalog d.clinic_id = some c →
       findService s.catalog data.service_id = some sv →
       slotCheckComprehensive s.catalog data.time_slot_id data.doctor_id = some slot →
       data2.time_slot_id = data.time_slot_id →
       findDoctor (book_appointment_comprehensive s data sr t nd).1.catalog
         data2.doctor_id = some d2 →
       findClinic (book_appointment_comprehensive s data sr t nd).1.catalog
         d2.clinic_id = some c2 →
       findService (book_appointment_comprehensive s data sr t nd).1.catalog
         data2.service_id = some sv2 →
       (book_appointment_comprehensive
           (book_appointment_comprehensive s data sr t nd).1 data2 sr2 t2 nd2).2 =
         BookResult.err "Time slot not available") ∧
    (∀ (cat : Catalog) (appts : List SimpleAppointment) (pid : Option Nat)
       (did sid slotId : Nat) (dOpt : Option String) (nd : String)
       (co sy ur : Option String),
       ((book_appointment_intelligent cat appts pid did sid slotId dOpt nd co sy ur).2.2 =
           SimpleBookResult.err "Time slot not available" ↔
         ∀ ts ∈ cat.timeSlots,
           ¬(ts.id = slotId ∧ ts.is_available = true ∧
             ∃ dd ∈ cat.doctors, dd.id = ts.doctor_id ∧
               ∃ k ∈ cat.clinics, k.id = dd.clinic_id))) := by
  refine ⟨?_, ?_, ?_⟩
  · intro s data sr t nd d c sv hd hc hs
    have key : (book_appointment_comprehensive s data sr t nd).2 =
        BookResult.err "Time slot not available" ↔
        slotCheckComprehensive s.catalog data.time_slot_id data.doctor_id = none := by
      unfold book_appointment_comprehensive
      simp only [hd, hc, hs]
      cases hslot : slotCheckComprehensive s.catalog data.time_slot_id data.doctor_id with
      | none => simp
      | some slot => simp
    rw [key, slotCheckComprehensive, List.find?_eq_none]
    constructor
    · intro hall ts hts hcontr
      apply hall ts hts
      simp only [Bool.and_eq_true, beq_iff_eq]
      tauto
    · intro hall ts hts hpred
      apply hall ts hts
      simp only [Bool.and_eq_true, beq_iff_eq] at hpred
      tauto
  · intro s data data2 sr sr2 t t2 nd nd2 d c sv slot d2 c2 sv2 hd hc hs hslot heq hd2 hc2 hs2
    have hcat : (book_appointment_comprehensive s data sr t nd).1.catalog =
        markSlotUnavailable s.catalog data.time_slot_id := by
      rw [book_ok hd hc hs hslot]
      rfl
    have hnone : slotCheckComprehensive
        (book_appointment_comprehensive s data sr t nd).1.catalog
        data2.time_slot_id data2.doctor_id = none := by
      rw [hcat, heq]
      exact slotCheck_after_mark _ _ _
    generalize hgen : (book_appointment_comprehensive s data sr t nd).1 = s2 at hd2 hc2 hs2 hnone
    unfold book_appointment_comprehensive
    simp only [hd2, hc2, hs2, hnone]
  · intro cat appts pid did sid slotId dOpt nd co sy ur
    have key : (book_appointment_intelligent cat appts pid did sid slotId dOpt nd co sy ur).2.2 =
        SimpleBookResult.err "Time slot not available" ↔
        slotCheckIntelligent cat slotId = none := by
      unfold book_appointment_intelligent
      cases hslot : slotCheckIntelligent cat slotId with
      | none => simp
      | some slot => simp
    rw [key, slotCheckIntelligent, List.find?_eq_none]
    constructor
    · intro hall ts hts hcontr
      apply hall ts hts
      simp only [Bool.and_eq_true, beq_iff_eq, List.any_eq_true]
      tauto
    · intro hall ts hts hpred
      apply hall ts hts
      simp only [Bool.and_eq_true, beq_iff_eq, List.any_eq_true] at hpred
      tauto

/-- Claim C1, amended, witness: a missing slot id makes the comprehensive
booking fail with the SlotUnavailable reply, an immediate rebooking of the
just-consumed slot 1 fails likewise, and the intelligent booking of an
available slot with an existing owner does not fail with it. -/
theorem claim1_amended_witness :
    (book_appointment_comprehensive demoState demoBookingMissingSlot none demoTime "2025-01-06").2 =
      BookResult.err "Time slot not available" ∧
    (book_appointment_comprehensive doubleBookRun1.1 demoBooking1 none demoTime2 "2025-01-06").2 =
      BookResult.err "Time slot not available" ∧
    ¬((book_appointment_intelligent demoCatalog [] none 2 1 1 (some "2025-01-06")
        "2025-01-06" none none none).2.2 = SimpleBookResult.err "Time slot not available") := by
  refine ⟨?_, ?_, ?_⟩
  · exact (claim1_amended.1 demoState demoBookingMissingSlot none demoTime "2025-01-06"
      demoDoctor demoClinic demoService (by decide) (by decide) (by decide)).mpr (by decide)
  · exact claim1_amended.2.1 demoState demoBooking1 demoBooking1 none none demoTime demoTime2
      "2025-01-06" "2025-01-06" demoDoctor demoClinic demoService demoSlot1 demoDoctor
      demoClinic demoService (by decide) (by decide) (by decide) (by decide) rfl
      (by decide) (by decide) (by decide)
  · intro hcontr
    have := (claim1_amended.2.2 demoCatalog [] none 2 1 1 (some "2025-01-06")
      "2025-01-06" none none none).mp hcontr
    exact absurd this (by decide)
